import Mathlib

/-!
Verification development for the GoBlog ActivityPub federation core.

The Go source is shallowly embedded: the loosely typed JSON activity maps
become an inductive `JVal` value type, the follower table becomes a list of
rows with upsert/delete semantics matching the SQL statements, and every
interaction with the outside world (HTTP fetches, HTTP posts, the database
driver, the HTML link extractor) is an explicit input supplied through a
`World` record.  A Go nil-pointer dereference or failed unchecked type
assertion is modelled as a `panicked` flag (the handler writes no status in
that case).
-/

namespace GoBlog

/-- A JSON value as decoded by Go's encoding/json into interface values:
strings, numbers, booleans, null, arrays and string-keyed objects. -/
inductive JVal where
  | str : String → JVal
  | num : Int → JVal
  | bool : Bool → JVal
  | null : JVal
  | arr : List JVal → JVal
  | obj : List (String × JVal) → JVal

/-- A decoded activity: Go's string-keyed interface map, as an association list. -/
abbrev Activity := List (String × JVal)

/-- Lookup of a key in a decoded JSON object (Go map indexing: absent key
yields the nil interface, modelled as none). -/
def jget : List (String × JVal) → String → Option JVal
  | [], _ => none
  | (k, v) :: rest, key => if k = key then some v else jget rest key

/-- Go's two-result type assertion x.(string): some s when the interface
holds a string, none otherwise (including the nil interface). -/
def asStr : Option JVal → Option String
  | some (JVal.str s) => some s
  | _ => none

/-- Go's comparison of a string with an interface value, as in the source's
check of newFollower against the follow object field: true exactly when the
interface holds an equal string.  Absent keys are none and compare false. -/
def jeqStr : Option JVal → String → Bool
  | some (JVal.str s), t => s == t
  | _, _ => false

/-- Character-list prefix test, auxiliary to strContains. -/
def strStarts : List Char → List Char → Bool
  | [], _ => true
  | _ :: _, [] => false
  | a :: as, b :: bs => a == b && strStarts as bs

/-- Scan for an occurrence of sub, auxiliary to strContains. -/
def strContainsAux (sub : List Char) : List Char → Bool
  | [] => strStarts sub []
  | c :: cs => strStarts sub (c :: cs) || strContainsAux sub cs

/-- Go's strings.Contains: substring containment. -/
def strContains (s sub : String) : Bool :=
  strContainsAux sub.toList s.toList

/-- One row of the activitypub_followers table: (blog, follower, inbox). -/
structure FollowerRow where
  blog : String
  follower : String
  inbox : String
deriving DecidableEq

/-- apAddFollower: insert or replace into activitypub_followers, keyed on
(blog, follower); the row with the same key is replaced. -/
def apAddFollower (blog follower inbox : String) (st : List FollowerRow) :
    List FollowerRow :=
  (st.filter fun r => !(r.blog == blog && r.follower == follower)) ++
    [⟨blog, follower, inbox⟩]

/-- apRemoveFollower: delete from activitypub_followers where blog and
follower match. -/
def apRemoveFollower (blog follower : String) (st : List FollowerRow) :
    List FollowerRow :=
  st.filter fun r => !(r.blog == blog && r.follower == follower)

/-- apRequestIsSuccess: code is one of 200, 201, 202, 204. -/
def apRequestIsSuccess (code : Nat) : Bool :=
  code == 200 || code == 201 || code == 202 || code == 204

/-- Modelled from the spec: the asPerson struct (declared outside the given
source slice) into which a remote actor document is decoded; section 4.3
says the body is parsed into id and inbox.  Go JSON decoding leaves a field
that is absent from the document at its zero value, the empty string. -/
structure asPerson where
  ID : String
  Inbox : String
deriving DecidableEq

/-- Outcome of the HTTP GET performed by apGetRemoteActor: request
construction failure, transport failure from Do, or a response with a
status code and a body that either decodes into an asPerson or does not. -/
inductive ActorFetch where
  | requestErr : ActorFetch
  | doErr : ActorFetch
  | response (status : Nat) (doc : Option asPerson) : ActorFetch
deriving DecidableEq

/-- The non-nil Go errors apGetRemoteActor can return. -/
inductive FetchErr where
  | reqErr : FetchErr
  | netErr : FetchErr
  | decodeErr : FetchErr
deriving DecidableEq

/-- apGetRemoteActor, as a function of the fetch outcome.  The pair mirrors
Go's (actor pointer, error) return.  On a non-success status the source
executes return nil, err - but err was already checked nil at that point,
so the function returns a nil actor together with a nil error. -/
def apGetRemoteActor (f : ActorFetch) : Option asPerson × Option FetchErr :=
  match f with
  | ActorFetch.requestErr => (none, some FetchErr.reqErr)
  | ActorFetch.doErr => (none, some FetchErr.netErr)
  | ActorFetch.response status doc =>
    if !apRequestIsSuccess status then (none, none)
    else
      match doc with
      | none => (none, some FetchErr.decodeErr)
      | some a => (some a, none)

/-- Outcome of the HTTP POST performed by apSendSigned: Do either fails
(returning a nil response) or yields a response with status and body. -/
inductive PostOutcome where
  | noResponse : PostOutcome
  | response (status : Nat) (body : String) : PostOutcome
deriving DecidableEq

/-- Environment of one apSendSigned call: which of the fallible steps
before the POST succeed, and the POST outcome itself. -/
structure SendEnv where
  marshalOk : Bool
  requestOk : Bool
  urlOk : Bool
  signOk : Bool
  outcome : PostOutcome
deriving DecidableEq

/-- The non-nil Go errors apSendSigned can return. -/
inductive SendErr where
  | marshalErr : SendErr
  | requestErr : SendErr
  | urlErr : SendErr
  | signErr : SendErr
  | rejected (status : Nat) (body : String) : SendErr
deriving DecidableEq

/-- apSendSigned.  none models a panic: when Do fails its response is nil,
and the source reads resp.StatusCode without checking the error first, a
nil-pointer dereference.  some e models an ordinary return with error e
(some none is a nil-error return). -/
def apSendSigned (env : SendEnv) : Option (Option SendErr) :=
  if !env.marshalOk then some (some SendErr.marshalErr)
  else if !env.requestOk then some (some SendErr.requestErr)
  else if !env.urlOk then some (some SendErr.urlErr)
  else if !env.signOk then some (some SendErr.signErr)
  else
    match env.outcome with
    | PostOutcome.noResponse => none
    | PostOutcome.response status body =>
      if !apRequestIsSuccess status then
        some (some (SendErr.rejected status body))
      else some none

/-- Observable side effects of inbound dispatch, in program order.  The
sendAccept event records that apSendSigned was invoked for the Accept
wrapping the context-stripped Follow, aimed at the given inbox (the Accept
payload itself is consulted by no claim and is elided). -/
inductive Event where
  | resolveActor (iri : String) : Event
  | upsert (blog follower inbox : String) (ok : Bool) : Event
  | sendAccept (inbox : String) : Event
  | removeFollower (blog follower : String) : Event
  | webmention (source target : String) : Event
  | notify (msg : String) : Event
deriving DecidableEq

/-- The external world one inbound request interacts with: the outcome of
the remote-actor GET per actor IRI, whether the two follower-table writes
fail at the database driver, the HTML link extraction (content, base id ->
none on parse error, otherwise the external links found), and the
environment of the apSendSigned call performed for an Accept. -/
structure World where
  resolve : String → ActorFetch
  addFollowerErr : Bool
  removeFollowerErr : Bool
  parse : String → String → Option (List String)
  accSend : SendEnv

/-- Result of one dispatched activity: effect trace, follower table after,
and whether the goroutine panicked partway through. -/
structure APResult where
  events : List Event
  registry : List FollowerRow
  panicked : Bool
deriving DecidableEq

/-- apAccept.  The source first runs an unchecked type assertion on the
activity's actor (panic when it is not a string), then returns on a
self-follow, resolves the remote actor (returning only when the returned
error is non-nil - on a non-success fetch status both actor and error are
nil, and reading follower.ID dereferences a nil pointer), then calls
apAddFollower discarding its error, and finally apSendSigned for the
Accept, whose own error only aborts the final log line. -/
def apAccept (blogName blogIri : String) (w : World) (follow : Activity)
    (st : List FollowerRow) : APResult :=
  match asStr (jget follow "actor") with
  | none => ⟨[], st, true⟩
  | some newFollower =>
    if jeqStr (jget follow "object") newFollower then ⟨[], st, false⟩
    else
      match apGetRemoteActor (w.resolve newFollower) with
      | (_, some _) => ⟨[Event.resolveActor newFollower], st, false⟩
      | (none, none) => ⟨[Event.resolveActor newFollower], st, true⟩
      | (some follower, none) =>
        let st2 := if w.addFollowerErr then st
          else apAddFollower blogName follower.ID follower.Inbox st
        let evs := [Event.resolveActor newFollower,
          Event.upsert blogName follower.ID follower.Inbox (!w.addFollowerErr),
          Event.sendAccept follower.Inbox]
        match apSendSigned w.accSend with
        | none => ⟨evs, st2, true⟩
        | some _ => ⟨evs, st2, false⟩

/-- The Undo case of apHandleInbox's switch: remove the follower only when
the inner object is a map of type Follow whose actor string equals the
outer activity's actor value. -/
def apUndoBranch (blogName : String) (w : World) (activity : Activity)
    (st : List FollowerRow) : APResult :=
  match jget activity "object" with
  | some (JVal.obj object) =>
    if asStr (jget object "type") = some "Follow" then
      match asStr (jget object "actor") with
      | some iri =>
        if jeqStr (jget activity "actor") iri then
          ⟨[Event.removeFollower blogName iri],
            (if w.removeFollowerErr then st
             else apRemoveFollower blogName iri st), false⟩
        else ⟨[], st, false⟩
      | none => ⟨[], st, false⟩
    else ⟨[], st, false⟩
  | _ => ⟨[], st, false⟩

/-- The Create case of apHandleInbox's switch: a reply mentioning the blog
IRI becomes a webmention; otherwise, for an object with content and a
non-empty id, the source parses the content but walks the document's
external links only when the parse error is non-nil (an inverted check), in
which case doc is nil and doc.ExternalLinks dereferences a nil pointer. -/
def apCreateBranch (blogIri : String) (w : World) (activity : Activity)
    (st : List FollowerRow) : APResult :=
  match jget activity "object" with
  | some (JVal.obj object) =>
    let inReplyTo := (asStr (jget object "inReplyTo")).getD ""
    let hasReplyToString := (asStr (jget object "inReplyTo")).isSome
    let id := (asStr (jget object "id")).getD ""
    let hasID := (asStr (jget object "id")).isSome
    if hasReplyToString && hasID && decide (0 < inReplyTo.length) &&
        decide (0 < id.length) && strContains inReplyTo blogIri then
      ⟨[Event.webmention id inReplyTo], st, false⟩
    else
      match asStr (jget object "content") with
      | some content =>
        if hasID && decide (0 < id.length) then
          match w.parse content id with
          | some _links => ⟨[], st, false⟩
          | none => ⟨[], st, true⟩
        else ⟨[], st, false⟩
      | none => ⟨[], st, false⟩
  | _ => ⟨[], st, false⟩

def apBlockBranch (blogName : String) (w : World) (activity : Activity)
    (st : List FollowerRow) : APResult :=
  match asStr (jget activity "object") with
  | some object =>
    if decide (0 < object.length) && jeqStr (jget activity "actor") object then
      ⟨[Event.removeFollower blogName object],
        (if w.removeFollowerErr then st
         else apRemoveFollower blogName object st), false⟩
    else ⟨[], st, false⟩
  | none => ⟨[], st, false⟩

def apLikeBranch (blogIri : String) (activity : Activity)
    (st : List FollowerRow) : APResult :=
  match asStr (jget activity "actor"), asStr (jget activity "object") with
  | some likeActor, some likeObject =>
    if decide (0 < likeActor.length) && decide (0 < likeObject.length) &&
        strContains likeObject blogIri then
      ⟨[Event.notify (likeActor ++ " liked " ++ likeObject)], st, false⟩
    else ⟨[], st, false⟩
  | _, _ => ⟨[], st, false⟩

def apAnnounceBranch (blogIri : String) (activity : Activity)
    (st : List FollowerRow) : APResult :=
  match asStr (jget activity "actor"), asStr (jget activity "object") with
  | some announceActor, some announceObject =>
    if decide (0 < announceActor.length) && decide (0 < announceObject.length) &&
        strContains announceObject blogIri then
      ⟨[Event.notify (announceActor ++ " announced " ++ announceObject)], st, false⟩
    else ⟨[], st, false⟩
  | _, _ => ⟨[], st, false⟩

/-- The body of apHandleInbox's switch on the activity's type field, as an
equality chain on the interface value (Go switch semantics).  Types not
listed, Delete, and listed cases whose guards fail all do nothing. -/
def apDispatch (blogName blogIri : String) (w : World) (activity : Activity)
    (st : List FollowerRow) : APResult :=
  let t := asStr (jget activity "type")
  if t = some "Follow" then apAccept blogName blogIri w activity st
  else if t = some "Undo" then apUndoBranch blogName w activity st
  else if t = some "Create" then apCreateBranch blogIri w activity st
  else if t = some "Delete" then ⟨[], st, false⟩
  else if t = some "Block" then apBlockBranch blogName w activity st
  else if t = some "Like" then apLikeBranch blogIri activity st
  else if t = some "Announce" then apAnnounceBranch blogIri activity st
  else ⟨[], st, false⟩

/-- Site configuration: the server's public address and the configured
blogs, each with its path; a blog's ActivityPub IRI is the public address
followed by its path. -/
structure Config where
  publicAddress : String
  blogs : List (String × String)

/-- blog.apIri: public address concatenated with the blog's path. -/
def apIri (cfg : Config) (path : String) : String :=
  cfg.publicAddress ++ path

/-- The HTTP-visible outcome of one inbox POST: the written status (none
when the handler panicked before reaching the final WriteHeader), the
effect trace, and the follower table after. -/
structure InboxResponse where
  status : Option Nat
  events : List Event
  registry : List FollowerRow
deriving DecidableEq

/-- apHandleInbox: 404 when the blog path parameter names no configured
blog, 400 when the body does not decode into an activity map, otherwise
dispatch on the activity type and write 201 - unless the dispatched branch
panicked, in which case no status is written by this handler. -/
def apHandleInbox (cfg : Config) (w : World) (blogName : String)
    (body : Option Activity) (st : List FollowerRow) : InboxResponse :=
  match List.lookup blogName cfg.blogs with
  | none => ⟨some 404, [], st⟩
  | some path =>
    let blogIri := apIri cfg path
    match body with
    | none => ⟨some 400, [], st⟩
    | some activity =>
      let r := apDispatch blogName blogIri w activity st
      if r.panicked then ⟨none, r.events, r.registry⟩
      else ⟨some 201, r.events, r.registry⟩

/-- The fields of the post struct that the ActivityPub hooks consult. -/
structure GoPost where
  Path : String
  Published : String
  Parameters : List (String × List String)
  Blog : String

/-- Modelled from the spec: post.firstParameter is declared outside the
given source slice; per the lifecycle-hook description (drafts and content
outside a section are skipped) it yields the first stored value of the
named parameter, and the empty string when the parameter is absent or has
no values. -/
def firstParameter (p : GoPost) (parameter : String) : String :=
  match List.lookup parameter p.Parameters with
  | some (v :: _) => v
  | _ => ""

/-- An activity handed to apSendToAllFollowers, reduced to the fields the
claims consult: its type tag and its id. -/
structure FanOut where
  actType : String
  actId : String
deriving DecidableEq

/-- apPost: nothing when ActivityPub is disabled or the post has an empty
Published or an empty first section parameter; otherwise fan out a Create
whose id is the public address followed by the post path. -/
def apPost (enabled : Bool) (publicAddress : String) (p : GoPost) :
    Option FanOut :=
  if !enabled then none
  else if p.Published = "" || firstParameter p "section" = "" then none
  else some ⟨"Create", publicAddress ++ p.Path⟩

/-- apUpdate: same guards as apPost, fanning out an Update. -/
def apUpdate (enabled : Bool) (publicAddress : String) (p : GoPost) :
    Option FanOut :=
  if !enabled then none
  else if p.Published = "" || firstParameter p "section" = "" then none
  else some ⟨"Update", publicAddress ++ p.Path⟩

/-- apDelete: nothing when ActivityPub is disabled; otherwise fan out a
Delete - the source has no Published or section guard in this hook. -/
def apDelete (enabled : Bool) (publicAddress : String) (p : GoPost) :
    Option FanOut :=
  if !enabled then none
  else some ⟨"Delete", publicAddress ++ p.Path ++ "#delete"⟩

/-! Concrete fixtures used to run the embedded handlers on explicit inputs. -/

/-- A delivery environment where every step succeeds and the remote accepts. -/
def okSend : SendEnv := ⟨true, true, true, true, PostOutcome.response 200 ""⟩

/-- One configured blog named b at path /b on example.com. -/
def cfgEx : Config := ⟨"https://example.com", [("b", "/b")]⟩

/-- A well-formed Follow from a remote actor to blog b. -/
def cexFollow : Activity :=
  [("type", JVal.str "Follow"), ("actor", JVal.str "https://remote/alice"),
   ("object", JVal.str "https://example.com/b")]

/-- World where the remote actor resolves to a document with id and inbox. -/
def wBase : World :=
  ⟨fun _ => ActorFetch.response 200
      (some ⟨"https://remote/alice", "https://remote/alice/inbox"⟩),
   false, false, fun _ _ => none, okSend⟩

/-- World where every actor fetch yields a 404 response. -/
def w404 : World :=
  ⟨fun _ => ActorFetch.response 404 none, false, false, fun _ _ => none, okSend⟩

/-- World where HTML parsing succeeds and finds one link into blog b. -/
def wParse : World :=
  ⟨fun _ => ActorFetch.response 200 none, false, false,
   fun _ _ => some ["https://example.com/b/post1"], okSend⟩

/-- World where the follower upsert fails at the database driver. -/
def wUpsertFail : World :=
  ⟨fun _ => ActorFetch.response 200 (some ⟨"fid", "finbox"⟩),
   true, false, fun _ _ => none, okSend⟩

/-- World where the remote actor document carries empty id and inbox. -/
def wEmptyDoc : World :=
  ⟨fun _ => ActorFetch.response 200 (some ⟨"", ""⟩),
   false, false, fun _ _ => none, okSend⟩

example : apHandleInbox cfgEx wBase "nope" (some cexFollow) [] =
    ⟨some 404, [], []⟩ := rfl

example : apHandleInbox cfgEx wBase "b" none [] = ⟨some 400, [], []⟩ := rfl

example : apHandleInbox cfgEx wBase "b" (some cexFollow) [] =
    ⟨some 201,
     [Event.resolveActor "https://remote/alice",
      Event.upsert "b" "https://remote/alice" "https://remote/alice/inbox" true,
      Event.sendAccept "https://remote/alice/inbox"],
     [⟨"b", "https://remote/alice", "https://remote/alice/inbox"⟩]⟩ := rfl

/-! Claim theorems. -/

/-- C1: the claim says every syntactically valid JSON body addressed to a
known site is answered 201 regardless of how the dispatched branch fares.
The code violates this: a valid Follow activity without an actor string
makes apAccept's unchecked type assertion panic before the final
WriteHeader, so no 201 is written (first conjunct, status none).  The 404
and 400 halves of the claim do hold (second and third conjuncts). -/
theorem C1_valid_follow_without_actor_gets_no_201 :
    apHandleInbox cfgEx wBase "b" (some [("type", JVal.str "Follow")]) [] =
      ⟨none, [], []⟩ ∧
    apHandleInbox cfgEx wBase "nope" (some cexFollow) [] = ⟨some 404, [], []⟩ ∧
    apHandleInbox cfgEx wBase "b" none [] = ⟨some 400, [], []⟩ :=
  ⟨rfl, rfl, rfl⟩

/-- C2: the claim says a non-success actor-fetch status yields a non-nil
RemoteRejected-class error.  The code instead returns the stale nil err
together with a nil actor (first conjunct), so the Follow workflow does not
abort at the error check: apAccept proceeds and dereferences the nil actor
pointer (second conjunct, panicked). -/
theorem C2_resolver_returns_nil_error_on_rejection :
    apGetRemoteActor (ActorFetch.response 404 none) = (none, none) ∧
    (apAccept "b" "https://example.com/b" w404 cexFollow []).panicked = true :=
  ⟨rfl, rfl⟩

/-- C3: the claim says a non-reply Create with content and id has its HTML
parsed and one citation recorded per external link containing the site
IRI.  In wParse the parse succeeds and yields exactly such a link, yet the
handler records nothing - the source walks the links only when the parse
error is non-nil. -/
theorem C3_create_mention_records_no_citation :
    apHandleInbox cfgEx wParse "b"
      (some [("type", JVal.str "Create"),
             ("object", JVal.obj [("id", JVal.str "https://remote/note"),
                                  ("content", JVal.str "some html")])]) [] =
      ⟨some 201, [], []⟩ :=
  rfl

/-- C4: the claim says a failed POST yields a NetworkFailure-class error
without crashing.  When Do fails the response is nil and the source reads
resp.StatusCode unguarded, a nil-pointer dereference (first conjunct,
panic).  The rejection half of the claim does hold: every response status
outside the success set is classified as a rejection carrying status and
body (second conjunct). -/
theorem C4_send_panics_when_remote_unreachable :
    apSendSigned ⟨true, true, true, true, PostOutcome.noResponse⟩ = none ∧
    ∀ status body, apRequestIsSuccess status = false →
      apSendSigned ⟨true, true, true, true, PostOutcome.response status body⟩ =
        some (some (SendErr.rejected status body)) := by
  refine ⟨rfl, fun status body h => ?_⟩
  simp [apSendSigned, h]

/-- C4 witness: the universally quantified rejection half of the theorem,
instantiated at a concrete 500 response. -/
theorem C4_send_panics_when_remote_unreachable_witness :
    apSendSigned ⟨true, true, true, true, PostOutcome.response 500 "oops"⟩ =
      some (some (SendErr.rejected 500 "oops")) :=
  C4_send_panics_when_remote_unreachable.2 500 "oops" rfl

/-- C5 counterexample: the claim says the delete hook, like publish and
update, never fans out for an item with an empty publish timestamp; but
apDelete has no such guard and fans out a Delete for this draft. -/
theorem C5_delete_hook_fans_out_for_draft :
    apDelete true "https://example.com" ⟨"/b/p1", "", [], "b"⟩ =
      some ⟨"Delete", "https://example.com/b/p1#delete"⟩ :=
  rfl

/-- C5 amended: the publish and update hooks skip a post with an empty
publish timestamp or an empty first section parameter, but the delete hook
fans out a Delete for any post whenever ActivityPub is enabled. -/
theorem C5_publish_update_skip_unsectioned_drafts (enabled : Bool)
    (pa : String) (p : GoPost)
    (h : p.Published = "" ∨ firstParameter p "section" = "") :
    apPost enabled pa p = none ∧ apUpdate enabled pa p = none ∧
    apDelete enabled pa p =
      (if enabled then some ⟨"Delete", pa ++ p.Path ++ "#delete"⟩ else none) := by
  cases enabled with
  | false => exact ⟨rfl, rfl, rfl⟩
  | true =>
    refine ⟨?_, ?_, rfl⟩
    · rcases h with h | h <;> simp [apPost, h]
    · rcases h with h | h <;> simp [apUpdate, h]

/-- C5 witness: the amended theorem at a concrete draft post. -/
theorem C5_publish_update_skip_unsectioned_drafts_witness :
    apPost true "https://example.com" ⟨"/b/p1", "", [], "b"⟩ = none ∧
    apUpdate true "https://example.com" ⟨"/b/p1", "", [], "b"⟩ = none ∧
    apDelete true "https://example.com" ⟨"/b/p1", "", [], "b"⟩ =
      (if true then some ⟨"Delete", "https://example.com" ++ "/b/p1" ++ "#delete"⟩
       else none) :=
  C5_publish_update_skip_unsectioned_drafts true "https://example.com"
    ⟨"/b/p1", "", [], "b"⟩ (Or.inl rfl)

/-- A self-follow activity: actor and object are the same IRI. -/
def selfFollow : Activity :=
  [("type", JVal.str "Follow"), ("actor", JVal.str "https://remote/alice"),
   ("object", JVal.str "https://remote/alice")]

/-- C6: a Follow whose actor string equals its object value is dropped
before anything happens: the response is 201 with an empty effect trace
(no actor resolution, no upsert, no Accept) and an unchanged registry. -/
theorem C6_self_follow_is_ignored (cfg : Config) (w : World)
    (blogName path a : String) (act : Activity) (st : List FollowerRow)
    (hblog : List.lookup blogName cfg.blogs = some path)
    (htype : asStr (jget act "type") = some "Follow")
    (hactor : asStr (jget act "actor") = some a)
    (hobj : jeqStr (jget act "object") a = true) :
    apHandleInbox cfg w blogName (some act) st = ⟨some 201, [], st⟩ := by
  have hd : apDispatch blogName (apIri cfg path) w act st = ⟨[], st, false⟩ := by
    simp [apDispatch, apAccept, htype, hactor, hobj]
  simp [apHandleInbox, hblog, hd]

/-- C6 witness: the theorem at a concrete self-follow against blog b. -/
theorem C6_self_follow_is_ignored_witness :
    apHandleInbox cfgEx wBase "b" (some selfFollow) [] = ⟨some 201, [], []⟩ :=
  C6_self_follow_is_ignored cfgEx wBase "b" "/b" "https://remote/alice"
    selfFollow [] rfl rfl rfl rfl

/-- Shared reduction: when the actor is a string, the Follow is not a
self-follow, the fetch yields a success status with a decoded document and
the database write succeeds, the registry after apAccept is exactly the
upsert of the document's ID and Inbox. -/
theorem apAccept_success_registry (blogName blogIri : String) (w : World)
    (follow : Activity) (st : List FollowerRow) (a : String) (status : Nat)
    (d : asPerson)
    (hactor : asStr (jget follow "actor") = some a)
    (hobj : jeqStr (jget follow "object") a = false)
    (hres : w.resolve a = ActorFetch.response status (some d))
    (hst : apRequestIsSuccess status = true)
    (hadd : w.addFollowerErr = false) :
    (apAccept blogName blogIri w follow st).registry =
      apAddFollower blogName d.ID d.Inbox st := by
  cases hsend : apSendSigned w.accSend <;>
    simp [apAccept, apGetRemoteActor, hactor, hobj, hres, hst, hadd, hsend]

/-- C7 counterexample: with a failing database upsert (wUpsertFail), the
Accept is still sent - the source discards apAddFollower's error - so an
Accept goes out for a follower that was never durably recorded: the trace
contains the send while the registry stays empty. -/
theorem C7_accept_sent_despite_failed_upsert :
    Event.sendAccept "finbox" ∈
      (apAccept "b" "https://example.com/b" wUpsertFail cexFollow []).events ∧
    (apAccept "b" "https://example.com/b" wUpsertFail cexFollow []).registry =
      [] := by
  exact ⟨by decide, rfl⟩

/-- Shared shape analysis of apAccept's effect trace: it is empty, or just
the actor resolution, or resolution then upsert then Accept send. -/
theorem apAccept_events_shape (blogName blogIri : String) (w : World)
    (follow : Activity) (st : List FollowerRow) :
    (apAccept blogName blogIri w follow st).events = [] ∨
    (∃ nf, (apAccept blogName blogIri w follow st).events =
      [Event.resolveActor nf]) ∨
    (∃ nf b f ib ok sb, (apAccept blogName blogIri w follow st).events =
      [Event.resolveActor nf, Event.upsert b f ib ok, Event.sendAccept sb]) := by
  unfold apAccept
  cases asStr (jget follow "actor") with
  | none => exact Or.inl rfl
  | some nf =>
    cases hj : jeqStr (jget follow "object") nf with
    | true => simp [hj]
    | false =>
      rcases h1 : apGetRemoteActor (w.resolve nf) with ⟨_ | a, _ | e⟩
      · exact Or.inr (Or.inl ⟨nf, by simp [hj, h1]⟩)
      · exact Or.inr (Or.inl ⟨nf, by simp [hj, h1]⟩)
      · refine Or.inr (Or.inr
          ⟨nf, blogName, a.ID, a.Inbox, !w.addFollowerErr, a.Inbox, ?_⟩)
        cases h2 : apSendSigned w.accSend <;> simp [hj, h1, h2]
      · exact Or.inr (Or.inl ⟨nf, by simp [hj, h1]⟩)

/-- C7 amended: within one Follow handling the upsert call strictly
precedes the Accept send in the effect trace; but because the upsert's
error is discarded, the Accept is sent even when the upsert fails, so
sends for non-recorded followers are possible (see the counterexample). -/
theorem C7_upsert_call_precedes_accept_send (blogName blogIri : String)
    (w : World) (follow : Activity) (st : List FollowerRow) (i : Nat)
    (inbox : String)
    (h : (apAccept blogName blogIri w follow st).events.get? i =
      some (Event.sendAccept inbox)) :
    ∃ j, j < i ∧ ∃ b f ib ok,
      (apAccept blogName blogIri w follow st).events.get? j =
        some (Event.upsert b f ib ok) := by
  rcases apAccept_events_shape blogName blogIri w follow st with
    hE | ⟨nf, hE⟩ | ⟨nf, b, f, ib, ok, sb, hE⟩
  · rw [hE] at h; simp at h
  · rw [hE] at h
    match i, h with
    | 0, h => simp at h
    | n + 1, h => simp at h
  · rw [hE] at h
    match i, h with
    | 0, h => simp at h
    | 1, h => simp at h
    | 2, h => exact ⟨1, by omega, b, f, ib, ok, by rw [hE]; rfl⟩
    | n + 3, h => simp at h

/-- C7 witness: the ordering theorem applied at the concrete failed-upsert
run, where the Accept send sits at trace index 2. -/
theorem C7_upsert_call_precedes_accept_send_witness :
    ∃ j, j < 2 ∧ ∃ b f ib ok,
      (apAccept "b" "https://example.com/b" wUpsertFail cexFollow []).events.get?
        j = some (Event.upsert b f ib ok) :=
  C7_upsert_call_precedes_accept_send "b" "https://example.com/b" wUpsertFail
    cexFollow [] 2 "finbox" rfl

/-- C8 counterexample: a well-formed Follow whose remote actor document
decodes with empty id and inbox is accepted and persisted as is, so the
registry ends up holding a row whose follower and inbox IRIs are both
empty - the claimed invariant fails. -/
theorem C8_empty_actor_document_persists_empty_row :
    apHandleInbox cfgEx wEmptyDoc "b" (some cexFollow) [] =
      ⟨some 201,
       [Event.resolveActor "https://remote/alice", Event.upsert "b" "" "" true,
        Event.sendAccept ""],
       [⟨"b", "", ""⟩]⟩ :=
  rfl

/-- C8 amended: the Follow path performs no validation - on a successful
resolution it upserts exactly the resolved document's ID and Inbox, empty
or not, so every row of the resulting registry either was there before or
mirrors the document verbatim; non-emptiness is not enforced. -/
theorem C8_registry_rows_mirror_resolved_document (blogName blogIri : String)
    (w : World) (follow : Activity) (st : List FollowerRow) (a : String)
    (status : Nat) (d : asPerson)
    (hactor : asStr (jget follow "actor") = some a)
    (hobj : jeqStr (jget follow "object") a = false)
    (hres : w.resolve a = ActorFetch.response status (some d))
    (hst : apRequestIsSuccess status = true)
    (hadd : w.addFollowerErr = false) :
    (apAccept blogName blogIri w follow st).registry =
      apAddFollower blogName d.ID d.Inbox st ∧
    ∀ r ∈ (apAccept blogName blogIri w follow st).registry,
      r ∈ st ∨ r = ⟨blogName, d.ID, d.Inbox⟩ := by
  have hreg := apAccept_success_registry blogName blogIri w follow st a status
    d hactor hobj hres hst hadd
  refine ⟨hreg, ?_⟩
  rw [hreg]
  intro r hr
  unfold apAddFollower at hr
  rcases List.mem_append.mp hr with hr | hr
  · exact Or.inl (List.mem_of_mem_filter hr)
  · exact Or.inr (List.mem_singleton.mp hr)

/-- C8 witness: the amended theorem at the empty-document world; the
resulting registry is exactly the upsert of the empty id and inbox. -/
theorem C8_registry_rows_mirror_resolved_document_witness :
    (apAccept "b" "https://example.com/b" wEmptyDoc cexFollow []).registry =
      apAddFollower "b" "" "" [] ∧
    ∀ r ∈ (apAccept "b" "https://example.com/b" wEmptyDoc cexFollow
        []).registry,
      r ∈ ([] : List FollowerRow) ∨ r = ⟨"b", "", ""⟩ :=
  C8_registry_rows_mirror_resolved_document "b" "https://example.com/b"
    wEmptyDoc cexFollow [] "https://remote/alice" 200 ⟨"", ""⟩
    rfl rfl rfl rfl rfl

/-- C9: an Undo whose inner object is a Follow map with an actor string
equal to the outer actor removes that follower's row and answers 201; and
removing an actor with no row leaves the registry unchanged (the delete is
a filter, a no-op when nothing matches). -/
theorem C9_undo_follow_removes_row (cfg : Config) (w : World)
    (blogName path iri : String) (act : Activity) (o : List (String × JVal))
    (st : List FollowerRow)
    (hblog : List.lookup blogName cfg.blogs = some path)
    (htype : asStr (jget act "type") = some "Undo")
    (hobj : jget act "object" = some (JVal.obj o))
    (hot : asStr (jget o "type") = some "Follow")
    (hoa : asStr (jget o "actor") = some iri)
    (ha : jeqStr (jget act "actor") iri = true)
    (hrm : w.removeFollowerErr = false) :
    apHandleInbox cfg w blogName (some act) st =
      ⟨some 201, [Event.removeFollower blogName iri],
       apRemoveFollower blogName iri st⟩ ∧
    ∀ st2 : List FollowerRow,
      (∀ r ∈ st2, ¬(r.blog = blogName ∧ r.follower = iri)) →
      apRemoveFollower blogName iri st2 = st2 := by
  constructor
  · have hd : apDispatch blogName (apIri cfg path) w act st =
        ⟨[Event.removeFollower blogName iri],
         apRemoveFollower blogName iri st, false⟩ := by
      simp [apDispatch, apUndoBranch, htype, hobj, hot, hoa, ha, hrm]
    simp [apHandleInbox, hblog, hd]
  · intro st2 h2
    unfold apRemoveFollower
    rw [List.filter_eq_self]
    intro r hr
    have h3 := h2 r hr
    rcases Decidable.em (r.blog = blogName) with hb | hb
    · have hf : r.follower ≠ iri := fun hf => h3 ⟨hb, hf⟩
      simp [hb, hf]
    · simp [hb]

/-- C9 witness: a concrete Undo(Follow) against a one-row registry, and
the no-op half at a registry holding an unrelated follower. -/
theorem C9_undo_follow_removes_row_witness :
    apHandleInbox cfgEx wBase "b"
      (some [("type", JVal.str "Undo"),
             ("actor", JVal.str "https://remote/alice"),
             ("object", JVal.obj
               [("type", JVal.str "Follow"),
                ("actor", JVal.str "https://remote/alice")])])
      [⟨"b", "https://remote/alice", "https://remote/alice/inbox"⟩] =
      ⟨some 201, [Event.removeFollower "b" "https://remote/alice"],
       apRemoveFollower "b" "https://remote/alice"
         [⟨"b", "https://remote/alice", "https://remote/alice/inbox"⟩]⟩ ∧
    ∀ st2 : List FollowerRow,
      (∀ r ∈ st2, ¬(r.blog = "b" ∧ r.follower = "https://remote/alice")) →
      apRemoveFollower "b" "https://remote/alice" st2 = st2 :=
  C9_undo_follow_removes_row cfgEx wBase "b" "/b" "https://remote/alice"
    [("type", JVal.str "Undo"),
     ("actor", JVal.str "https://remote/alice"),
     ("object", JVal.obj
       [("type", JVal.str "Follow"),
        ("actor", JVal.str "https://remote/alice")])]
    [("type", JVal.str "Follow"),
     ("actor", JVal.str "https://remote/alice")]
    [⟨"b", "https://remote/alice", "https://remote/alice/inbox"⟩]
    rfl rfl rfl rfl rfl rfl rfl

/-- World where the resolved document's id differs from the claimed actor
IRI used in the Follow activity. -/
def wDiffId : World :=
  ⟨fun _ => ActorFetch.response 200
      (some ⟨"https://remote/alice/id", "https://remote/alice/inbox"⟩),
   false, false, fun _ _ => none, okSend⟩

/-- C10: the persisted row is keyed by the fetched document's id and
stores the document's inbox, not the actor IRI claimed in the Follow; when
the two differ, an Undo or Block naming the claimed IRI removes nothing:
the row survives apRemoveFollower on the claimed IRI. -/
theorem C10_row_keyed_by_resolved_id (blogName blogIri a : String)
    (w : World) (follow : Activity) (st : List FollowerRow) (status : Nat)
    (d : asPerson)
    (hactor : asStr (jget follow "actor") = some a)
    (hobj : jeqStr (jget follow "object") a = false)
    (hres : w.resolve a = ActorFetch.response status (some d))
    (hst : apRequestIsSuccess status = true)
    (hadd : w.addFollowerErr = false)
    (hne : d.ID ≠ a) :
    (⟨blogName, d.ID, d.Inbox⟩ : FollowerRow) ∈
      (apAccept blogName blogIri w follow st).registry ∧
    (⟨blogName, d.ID, d.Inbox⟩ : FollowerRow) ∈
      apRemoveFollower blogName a
        ((apAccept blogName blogIri w follow st).registry) := by
  have hreg := apAccept_success_registry blogName blogIri w follow st a status
    d hactor hobj hres hst hadd
  rw [hreg]
  have hmem : (⟨blogName, d.ID, d.Inbox⟩ : FollowerRow) ∈
      apAddFollower blogName d.ID d.Inbox st := by
    unfold apAddFollower
    exact List.mem_append_right _ (List.mem_singleton.mpr rfl)
  refine ⟨hmem, ?_⟩
  unfold apRemoveFollower
  apply List.mem_filter.mpr
  refine ⟨hmem, ?_⟩
  simp [hne]

/-- C10 witness: the theorem at a world where the document id
https remote alice id differs from the claimed IRI https remote alice. -/
theorem C10_row_keyed_by_resolved_id_witness :
    (⟨"b", "https://remote/alice/id", "https://remote/alice/inbox"⟩ :
        FollowerRow) ∈
      (apAccept "b" "https://example.com/b" wDiffId cexFollow []).registry ∧
    (⟨"b", "https://remote/alice/id", "https://remote/alice/inbox"⟩ :
        FollowerRow) ∈
      apRemoveFollower "b" "https://remote/alice"
        ((apAccept "b" "https://example.com/b" wDiffId cexFollow
          []).registry) :=
  C10_row_keyed_by_resolved_id "b" "https://example.com/b"
    "https://remote/alice" wDiffId cexFollow [] 200
    ⟨"https://remote/alice/id", "https://remote/alice/inbox"⟩
    rfl rfl rfl rfl rfl (by decide)

end GoBlog
